import Mathlib

/-!
Verification of the data-transformation and prompt-construction logic of the
Sales-analytics dashboard (src/agent.py), as a shallow embedding in Lean 4.

Dataframes are embedded as lists of records; numeric pandas columns (amount,
probability) are modelled as rationals, so arithmetic is exact; nullable
(NaN-able) columns are modelled as `Option`; a fallible computation is an
`Except`.  Each definition is translated from the corresponding place in
src/agent.py, noted in its doc string.
-/

namespace Sales

/-- An account row after `load_data` standardization (src/agent.py line 35):
columns `account_id`, `account_name`. -/
structure Account where
  account_id : Nat
  account_name : String
deriving DecidableEq

/-- An opportunity row after `load_data` (src/agent.py lines 38-43): renamed
columns plus the left-joined (hence nullable) `account_name`.  The parsed
`close_date` is kept as an uninterpreted string. -/
structure Opp where
  opportunity_id : Nat
  account_id : Nat
  amount : ℚ
  probability : ℚ
  stage : String
  close_date : String
  account_name : Option String
deriving DecidableEq

/-- A contact row after `load_data` (src/agent.py lines 46-49), with the
left-joined nullable `account_name`. -/
structure Contact where
  contact_id : Nat
  account_id : Nat
  contact_name : String
  email : String
  account_name : Option String
deriving DecidableEq

/-! ## Dashboard metrics (C1), src/agent.py lines 88-94 -/

/-- Embeds `weighted_df["weighted_amount"] = weighted_df["amount"] * (weighted_df["probability"] / 100)`
(src/agent.py line 89), per row. -/
def weightedAmount (o : Opp) : ℚ := o.amount * (o.probability / 100)

/-- Embeds `opps_df['amount'].sum()` (src/agent.py line 92). -/
def totalPipeline (opps : List Opp) : ℚ := (opps.map Opp.amount).sum

/-- Embeds `weighted_df['weighted_amount'].sum()` (src/agent.py line 93). -/
def weightedPipeline (opps : List Opp) : ℚ := (opps.map weightedAmount).sum

/-- Embeds `len(opps_df)` (src/agent.py line 94). -/
def activeDeals (opps : List Opp) : Nat := opps.length

/-- The spec's end-to-end example table: 5 opportunities with amounts
1000/2000/3000/4000/5000 and probability 50 each. -/
def exampleOpps : List Opp :=
  [⟨1, 1, 1000, 50, "Prospecting", "2025-01-01", some "A"⟩,
   ⟨2, 1, 2000, 50, "Prospecting", "2025-01-02", some "A"⟩,
   ⟨3, 2, 3000, 50, "Negotiation", "2025-01-03", some "B"⟩,
   ⟨4, 2, 4000, 50, "Negotiation", "2025-01-04", some "B"⟩,
   ⟨5, 3, 5000, 50, "Closed Won", "2025-01-05", some "C"⟩]

/-! ## AI gateway (C2), src/agent.py lines 65-76 -/

/-- The `message` object of a chat-completion choice. -/
structure Message where
  content : String
deriving DecidableEq

/-- One element of `response.choices`. -/
structure Choice where
  message : Message
deriving DecidableEq

/-- The chat-completion response consumed by `ask_ai`: only its `choices`
list is read (src/agent.py line 74). -/
structure ChatResponse where
  choices : List Choice
deriving DecidableEq

/-- Embeds `ask_ai` (src/agent.py lines 65-76).  The outbound
`client.chat.completions.create(...)` call is the function's input: `.ok r`
when the call returns a response, `.error e` when it raises an exception
whose `str(e)` is `e`.  Inside the `try` block the code then evaluates
`response.choices[0]`; on an empty choices list Python raises an
`IndexError` (message "list index out of range"), which the same `except`
clause converts to an inline error string.  The function is total: every
input yields a string, modelling "never raises to the caller". -/
def ask_ai (call : Except String ChatResponse) : String :=
  match call with
  | .ok r =>
    match r.choices with
    | c :: _ => c.message.content
    | [] => "AI Error: " ++ "list index out of range"
  | .error e => "AI Error: " ++ e

/-! ## AI Assistant context and prompt (C5), src/agent.py lines 118-128 -/

/-- One row of the assistant's context slice: exactly the four columns
selected by `opps_df[['account_name', 'stage', 'amount', 'probability']]`
(src/agent.py line 120). -/
structure ContextRow where
  account_name : Option String
  stage : String
  amount : ℚ
  probability : ℚ
deriving DecidableEq

/-- The four-column projection of one opportunity row. -/
def projectOpp (o : Opp) : ContextRow := ⟨o.account_name, o.stage, o.amount, o.probability⟩

/-- Embeds `opps_df[['account_name', 'stage', 'amount', 'probability']].head(20)`
(src/agent.py line 120): the four-column projection of the first 20 rows in
current table order. -/
def assistantContext (opps : List Opp) : List ContextRow :=
  (opps.map projectOpp).take 20

/-- Rendering of a nullable cell; pandas prints a missing value as NaN. -/
def renderOptCell : Option String → String
  | some s => s
  | none => "NaN"

/-- One data line of `context.to_string(index=False)`. -/
def renderContextRow (r : ContextRow) : String :=
  renderOptCell r.account_name ++ " " ++ r.stage ++ " "
    ++ toString r.amount ++ " " ++ toString r.probability

/-- Embeds `context.to_string(index=False)` (src/agent.py line 123), modelled as a
header line naming the four columns followed by one line per context row
(the exact column alignment of pandas is abstracted away). -/
def renderContextTable (rows : List ContextRow) : String :=
  String.intercalate "\n" ("account_name stage amount probability" :: rows.map renderContextRow)

/-- The AI Assistant prompt f-string (src/agent.py lines 121-128): the
rendered context slice followed by the user's question, verbatim. -/
def assistantPrompt (opps : List Opp) (question : String) : String :=
  "\n            Sales Data (top 20 opportunities):\n            "
    ++ renderContextTable (assistantContext opps)
    ++ "\n\n            Question: "
    ++ question
    ++ "\n\n            Answer concisely with specific numbers and recommendations.\n            "

/-! ## Meeting Prep brief (C6), src/agent.py lines 137-147 -/

/-- Embeds `opps_df[opps_df.account_name == account]` (src/agent.py line 137); a
null account name never equals the selected account string. -/
def account_opps (opps : List Opp) (account : String) : List Opp :=
  opps.filter (fun o => o.account_name = some account)

/-- Embeds `contacts_df[contacts_df.account_name == account]` (src/agent.py
line 138). -/
def account_contacts (contacts : List Contact) (account : String) : List Contact :=
  contacts.filter (fun c => c.account_name = some account)

/-- One data line of the contacts table rendering. -/
def renderContactRow (c : Contact) : String := c.contact_name ++ " " ++ c.email

/-- Embeds `account_contacts[['contact_name', 'email']].to_string(index=False)`
(src/agent.py line 147): header naming the two selected columns, then one
line per contact row. -/
def renderContactsTable (cs : List Contact) : String :=
  String.intercalate "\n" ("contact_name email" :: cs.map renderContactRow)

/-- The contacts section of the meeting-prep brief (src/agent.py line 147):
`... .to_string(index=False) if not account_contacts.empty else "No contacts"`.
A dataframe is `.empty` exactly when it has zero rows. -/
def contactsSection (contacts : List Contact) (account : String) : String :=
  if account_contacts contacts account = [] then "No contacts"
  else renderContactsTable (account_contacts contacts account)

/-- One data line of the opportunities table rendering of the brief. -/
def renderOppRow (o : Opp) : String :=
  o.stage ++ " " ++ toString o.amount ++ " " ++ toString o.probability ++ " " ++ o.close_date

/-- Embeds `account_opps[['stage', 'amount', 'probability', 'close_date']].to_string(index=False)`
(src/agent.py line 144). -/
def renderOppsTable (os : List Opp) : String :=
  String.intercalate "\n" ("stage amount probability close_date" :: os.map renderOppRow)

/-- The meeting-prep brief prompt f-string (src/agent.py lines 140-153). -/
def meetingPrompt (opps : List Opp) (contacts : List Contact) (account : String) : String :=
  "\n            MEETING BRIEF for " ++ account
    ++ "\n\n            Opportunities:\n            "
    ++ renderOppsTable (account_opps opps account)
    ++ "\n\n            Contacts:\n            "
    ++ contactsSection contacts account
    ++ "\n\n            Provide:\n            1. Account status summary\n            2. Key talking points\n            3. Next action recommendations\n            "

/-! ## Credential resolution and client construction (C7), src/agent.py lines 9-18 -/

/-- The constructed `Groq(api_key=API_KEY)` handle (src/agent.py line 18). -/
structure GroqClient where
  api_key : String
deriving DecidableEq

/-- Python's `x or y` on the two optional credential sources (src/agent.py
lines 11-14): the left operand if it is truthy (present and non-empty),
otherwise the right operand unchanged. -/
def pyOr (a b : Option String) : Option String :=
  match a with
  | some s => if s = "" then b else some s
  | none => b

/-- Embeds `get_groq_client` (src/agent.py lines 10-18): resolve the credential
from the environment variable first, falling back to the secret store;
`if not API_KEY: st.error(...); st.stop()` halts the script before the tabs
render, modelled as `.error ()`; otherwise the client handle is built from
the resolved key. -/
def get_groq_client (env secrets : Option String) : Except Unit GroqClient :=
  match pyOr env secrets with
  | some s => if s = "" then .error () else .ok ⟨s⟩
  | none => .error ()

/-- Modelled from the spec: the `@st.cache_resource` decorator on
`get_groq_client` (src/agent.py line 9) is Streamlit library code not in
src/; per the spec the client handle "is constructed once ... and reused
for all calls".  The memo cell is passed explicitly: a cached handle is
returned as-is, otherwise the body runs once and its result is stored. -/
def get_groq_client_cached (cache : Option GroqClient) (env secrets : Option String) :
    Except Unit (GroqClient × Option GroqClient) :=
  match cache with
  | some c => .ok (c, some c)
  | none =>
    match get_groq_client env secrets with
    | .ok c => .ok (c, some c)
    | .error e => .error e

/-! ## Conditional task columns (C8), src/agent.py lines 52-57 -/

/-- Embeds `tasks.rename(columns={"ACCOUNT_ID": "account_id"})` at schema level. -/
def renameCol (old nw : String) (cols : List String) : List String :=
  cols.map (fun c => if c = old then nw else c)

/-- Embeds `if "ACCOUNT_ID" in tasks.columns: tasks = tasks.rename(...)`
(src/agent.py lines 52-53), tracked on the column schema. -/
def tasksRenameStep (cols : List String) : List String :=
  if "ACCOUNT_ID" ∈ cols then renameCol "ACCOUNT_ID" "account_id" cols else cols

/-- Embeds `if "ACTIVITY_DATE" in tasks.columns: tasks["activity_date"] = ...`
(src/agent.py lines 54-55): assigning a new column appends it. -/
def tasksDateStep (cols : List String) : List String :=
  if "ACTIVITY_DATE" ∈ cols then cols ++ ["activity_date"] else cols

/-- Embeds `if "account_id" in tasks.columns: tasks = tasks.merge(...)`
(src/agent.py lines 56-57): the left merge appends `account_name`. -/
def tasksJoinStep (cols : List String) : List String :=
  if "account_id" ∈ cols then cols ++ ["account_name"] else cols

/-- The tasks branch of `load_data` (src/agent.py lines 52-57) at column
schema level; the data-level effect of the merge is `leftJoin`, verified
separately.  The function is total: a missing optional column never makes
the loader fail. -/
def processTasksCols (cols : List String) : List String :=
  tasksJoinStep (tasksDateStep (tasksRenameStep cols))

/-! ## Outreach Generator selectors (C10), src/agent.py lines 158-164 -/

/-- Embeds `sorted(contacts_df["account_name"].dropna().unique())` (src/agent.py
line 158): drop nulls, keep first occurrences, sort ascending. -/
def accountOptions (contacts : List Contact) : List String :=
  ((contacts.filterMap Contact.account_name).dedup).mergeSort (fun a b => a ≤ b)

/-- Embeds `contact_df = contacts_df[contacts_df["account_name"] == account]`
(src/agent.py line 159). -/
def contact_df (contacts : List Contact) (account : String) : List Contact :=
  contacts.filter (fun c => c.account_name = some account)

/-- The options of the Contact selector (src/agent.py lines 161-164):
`contact_df["contact_name"].tolist() if not contact_df.empty else ["No Contacts"]`. -/
def contactOptions (contacts : List Contact) (account : String) : List String :=
  if contact_df contacts account = [] then ["No Contacts"]
  else (contact_df contacts account).map Contact.contact_name

/-! ## Stage aggregation (C3), src/agent.py line 97 -/

/-- The distinct stage labels of the opportunity table, in first-occurrence
order (the grouping keys of `opps_df.groupby("stage")`; pandas sorts the
keys, but the spec declares output order not significant). -/
def stageKeys (opps : List Opp) : List String := (opps.map Opp.stage).dedup

/-- The aggregated amount of one stage group:
`opps_df.groupby("stage")["amount"].sum()` for a single stage label. -/
def stageSum (opps : List Opp) (s : String) : ℚ :=
  ((opps.filter (fun o => o.stage = s)).map Opp.amount).sum

/-- Embeds `stage_summary = opps_df.groupby("stage")["amount"].sum().reset_index()`
(src/agent.py line 97): one (stage, total amount) row per distinct stage. -/
def stage_summary (opps : List Opp) : List (String × ℚ) :=
  (stageKeys opps).map (fun s => (s, stageSum opps s))

/-! ## Per-view state passing (C9) -/

/-- A row of `weighted_df` (src/agent.py lines 88-89): every column of the
copied opportunity row plus the derived `weighted_amount` column. -/
structure WOpp where
  opportunity_id : Nat
  account_id : Nat
  amount : ℚ
  probability : ℚ
  stage : String
  close_date : String
  account_name : Option String
  weighted_amount : ℚ
deriving DecidableEq

/-- Embeds `opps_df.copy()` followed by the `weighted_amount` assignment, per row:
the fresh row copies every column and adds the derived one. -/
def mkWeighted (o : Opp) : WOpp :=
  ⟨o.opportunity_id, o.account_id, o.amount, o.probability, o.stage, o.close_date,
    o.account_name, weightedAmount o⟩

/-- Embeds `weighted_df` (src/agent.py lines 88-89). -/
def weighted_df (opps : List Opp) : List WOpp := opps.map mkWeighted

/-- Projection dropping the derived column, to compare `weighted_df` rows
with the source table. -/
def dropWeighted (w : WOpp) : Opp :=
  ⟨w.opportunity_id, w.account_id, w.amount, w.probability, w.stage, w.close_date,
    w.account_name⟩

/-- The four tables returned by `load_data` and memoized for the process
lifetime (src/agent.py line 62); the tasks table, which no view reads, is
carried as its column schema. -/
structure Tables where
  accounts : List Account
  contacts : List Contact
  opps : List Opp
  tasks : List String
deriving DecidableEq

/-- One data line of `stage_summary.to_string(index=False)`. -/
def renderStageRow (r : String × ℚ) : String := r.1 ++ " " ++ toString r.2

/-- Embeds `stage_summary.to_string(index=False)` (src/agent.py line 109). -/
def renderStageTable (rows : List (String × ℚ)) : String :=
  String.intercalate "\n" ("stage amount" :: rows.map renderStageRow)

/-- The Dashboard insight prompt f-string (src/agent.py lines 107-111). -/
def insightPrompt (rows : List (String × ℚ)) : String :=
  "\n            Analyze this sales pipeline data and provide 3 actionable insights:\n            "
    ++ renderStageTable rows
    ++ "\n            Focus on opportunities, risks, and next actions.\n            "

/-- The Outreach email prompt f-string (src/agent.py lines 172-178). -/
def outreachPrompt (tone contact account purpose : String) : String :=
  "\n            Write a " ++ tone.toLower ++ " sales email to " ++ contact
    ++ " at " ++ account
    ++ ".\n            Purpose: " ++ purpose
    ++ "\n            Structure: Subject line + Greeting + Body + Call-to-action + Sign-off\n            Keep under 150 words. Conversational tone.\n            From: Your Name, Sales Manager at Your Company\n            "

/-- The Dashboard tab (src/agent.py lines 86-112) with explicit state
passing: the tables it read paired with its outputs (the three metrics, the
stage summary, the insight prompt).  Because of the `.copy()` on line 88
the weighted column is added to a fresh table only, so the translation
returns the loaded tables untouched. -/
def dashboardView (t : Tables) : Tables × (ℚ × ℚ × ℕ) × List (String × ℚ) × String :=
  (t,
   (totalPipeline t.opps, ((weighted_df t.opps).map WOpp.weighted_amount).sum,
     activeDeals t.opps),
   stage_summary t.opps,
   insightPrompt (stage_summary t.opps))

/-- The AI Assistant tab (src/agent.py lines 114-129) with explicit state
passing: slicing `opps_df.head(20)` reads the table without writing it. -/
def assistantView (t : Tables) (question : String) : Tables × String :=
  (t, assistantPrompt t.opps question)

/-- The Meeting Prep tab (src/agent.py lines 131-155) with explicit state
passing: boolean-mask filtering produces new tables. -/
def meetingView (t : Tables) (account : String) : Tables × String :=
  (t, meetingPrompt t.opps t.contacts account)

/-- The Outreach Generator tab (src/agent.py lines 157-179) with explicit
state passing. -/
def outreachView (t : Tables) (account contact tone purpose : String) :
    Tables × List String × String :=
  (t, contactOptions t.contacts account, outreachPrompt tone contact account purpose)

/-! ## Left join of `load_data` (C4), src/agent.py lines 43 and 49 -/

/-- An opportunity row after the rename (src/agent.py lines 38-41) and before
the merge with accounts. -/
structure RawOpp where
  opportunity_id : Nat
  account_id : Nat
  amount : ℚ
  probability : ℚ
  stage : String
  close_date : String
deriving DecidableEq

/-- A contact row after the rename (src/agent.py lines 46-48) and before the
merge with accounts. -/
structure RawContact where
  contact_id : Nat
  account_id : Nat
  contact_name : String
  email : String
deriving DecidableEq

/-- The account names matching a foreign key:
`accounts[["account_id", "account_name"]]` restricted to one key value. -/
def matchingNames (accounts : List Account) (aid : Nat) : List String :=
  (accounts.filter (fun a => a.account_id = aid)).map Account.account_name

/-- One output group of `child.merge(accounts[...], on="account_id", how="left")`
for a single child row: one row per matching account row, or a single row
with a null `account_name` when no account matches. -/
def leftJoinRow {α : Type} (getId : α → Nat) (accounts : List Account) (r : α) :
    List (α × Option String) :=
  match matchingNames accounts (getId r) with
  | [] => [(r, none)]
  | ns => ns.map (fun n => (r, some n))

/-- Embeds `child.merge(accounts[["account_id", "account_name"]], on="account_id", how="left")`
(src/agent.py lines 43 and 49): concatenation of the per-row output groups,
in child order. -/
def leftJoin {α : Type} (getId : α → Nat) (child : List α) (accounts : List Account) :
    List (α × Option String) :=
  (child.map (leftJoinRow getId accounts)).flatten

/-- The opportunities merge of src/agent.py line 43, producing the loaded
opportunity table. -/
def joinOpps (opps : List RawOpp) (accounts : List Account) : List Opp :=
  (leftJoin RawOpp.account_id opps accounts).map
    (fun p => ⟨p.1.opportunity_id, p.1.account_id, p.1.amount, p.1.probability,
               p.1.stage, p.1.close_date, p.2⟩)

/-- The contacts merge of src/agent.py line 49, producing the loaded contact
table. -/
def joinContacts (contacts : List RawContact) (accounts : List Account) : List Contact :=
  (leftJoin RawContact.account_id contacts accounts).map
    (fun p => ⟨p.1.contact_id, p.1.account_id, p.1.contact_name, p.1.email, p.2⟩)

/-- The single output row that the left join produces for one child
opportunity row when account identifiers are unique: the child row with the
unique matching account name, or null when unmatched. -/
def joinedOppRow (accounts : List Account) (r : RawOpp) : Opp :=
  ⟨r.opportunity_id, r.account_id, r.amount, r.probability, r.stage, r.close_date,
    (accounts.find? (fun a => a.account_id = r.account_id)).map Account.account_name⟩

/-- The single output row that the left join produces for one child contact
row when account identifiers are unique. -/
def joinedContactRow (accounts : List Account) (r : RawContact) : Contact :=
  ⟨r.contact_id, r.account_id, r.contact_name, r.email,
    (accounts.find? (fun a => a.account_id = r.account_id)).map Account.account_name⟩

/-! ## Theorems -/

/-- C1: for every opportunity row the computed weighted amount equals
amount × probability / 100 in exact rational arithmetic (no rounding
occurs before display formatting); the weighted-pipeline metric is the sum
of the weighted amounts, the total-pipeline metric is the sum of the raw
amounts, and the active-deals metric is the row count.  On the spec's
example table (amounts 1000..5000, probabilities all 50) the metrics are
15000, 7500 and 5. -/
theorem dashboard_metrics (opps : List Opp) :
    opps.map weightedAmount = opps.map (fun o => o.amount * o.probability / 100) ∧
    weightedPipeline opps = (opps.map (fun o => o.amount * o.probability / 100)).sum ∧
    totalPipeline opps = (opps.map Opp.amount).sum ∧
    activeDeals opps = opps.length ∧
    totalPipeline exampleOpps = 15000 ∧
    weightedPipeline exampleOpps = 7500 ∧
    activeDeals exampleOpps = 5 := by
  have hmap : opps.map weightedAmount
      = opps.map (fun o => o.amount * o.probability / 100) := by
    apply List.map_congr_left
    intro o _
    rw [weightedAmount, mul_div_assoc]
  refine ⟨hmap, ?_, rfl, rfl, ?_, ?_, rfl⟩
  · rw [weightedPipeline, hmap]
  · norm_num [totalPipeline, exampleOpps]
  · norm_num [weightedPipeline, weightedAmount, exampleOpps]

lemma matchingNames_eq_find (accounts : List Account) (aid : Nat)
    (hnd : (accounts.map Account.account_id).Nodup) :
    matchingNames accounts aid
      = ((accounts.find? (fun a => a.account_id = aid)).map Account.account_name).toList := by
  induction accounts with
  | nil => rfl
  | cons a as ih =>
    simp only [List.map_cons, List.nodup_cons] at hnd
    by_cases h : a.account_id = aid
    · have hfl : as.filter (fun x => x.account_id = aid) = [] := by
        rw [List.filter_eq_nil_iff]
        intro x hx
        simp only [decide_eq_true_eq]
        intro hxa
        exact hnd.1 (by rw [h, ← hxa]; exact List.mem_map_of_mem Account.account_id hx)
      rw [matchingNames, List.filter_cons_of_pos (by simp [h]),
        List.find?_cons_of_pos _ (by simp [h])]
      simp [hfl]
    · rw [matchingNames, List.filter_cons_of_neg (by simp [h]),
        List.find?_cons_of_neg _ (by simp [h])]
      exact ih hnd.2

lemma leftJoinRow_eq {α : Type} (getId : α → Nat) (accounts : List Account) (r : α)
    (hnd : (accounts.map Account.account_id).Nodup) :
    leftJoinRow getId accounts r
      = [(r, (accounts.find? (fun a => a.account_id = getId r)).map Account.account_name)] := by
  rw [leftJoinRow, matchingNames_eq_find accounts (getId r) hnd]
  cases accounts.find? (fun a => a.account_id = getId r) with
  | none => rfl
  | some a => rfl

lemma flatten_map_singleton {α β : Type} (f : α → β) (l : List α) :
    (l.map (fun r => [f r])).flatten = l.map f := by
  induction l with
  | nil => rfl
  | cons x xs ih => simp only [List.map_cons, List.flatten_cons, ih, List.singleton_append]

lemma leftJoin_eq_map {α : Type} (getId : α → Nat) (child : List α)
    (accounts : List Account) (hnd : (accounts.map Account.account_id).Nodup) :
    leftJoin getId child accounts
      = child.map (fun r =>
          (r, (accounts.find? (fun a => a.account_id = getId r)).map Account.account_name)) := by
  rw [leftJoin]
  have h : child.map (leftJoinRow getId accounts)
      = child.map (fun r =>
          [(r, (accounts.find? (fun a => a.account_id = getId r)).map Account.account_name)]) :=
    List.map_congr_left (fun r _ => leftJoinRow_eq getId accounts r hnd)
  rw [h, flatten_map_singleton]

/-- C4 counterexample: the claim quantifies over every accounts table, but
with a duplicated account identifier the pandas left merge emits one output
row per matching account row, so a 1-row contact table joins to 2 rows. -/
theorem leftJoin_count_cex :
    (joinContacts [⟨1, 1, "Jane", "jane@acme.example"⟩]
        [⟨1, "Acme"⟩, ⟨1, "Acme Corp"⟩]).length
      ≠ ([⟨1, 1, "Jane", "jane@acme.example"⟩] : List RawContact).length := by
  decide

/-- C4 (amended): provided each account identifier occurs at most once in
the accounts table, the left join preserves the child table's row count for
both opportunities and contacts; each child row yields exactly one output
row whose `account_name` is the unique matching account's name, or null
when no account matches — never a dropped row. -/
theorem leftJoin_preserves_count (opps : List RawOpp) (contacts : List RawContact)
    (accounts : List Account) (hnd : (accounts.map Account.account_id).Nodup) :
    (joinOpps opps accounts).length = opps.length ∧
    (joinContacts contacts accounts).length = contacts.length ∧
    joinOpps opps accounts = opps.map (joinedOppRow accounts) ∧
    joinContacts contacts accounts = contacts.map (joinedContactRow accounts) := by
  have ho : joinOpps opps accounts = opps.map (joinedOppRow accounts) := by
    rw [joinOpps, leftJoin_eq_map RawOpp.account_id opps accounts hnd, List.map_map]
    rfl
  have hc : joinContacts contacts accounts = contacts.map (joinedContactRow accounts) := by
    rw [joinContacts, leftJoin_eq_map RawContact.account_id contacts accounts hnd, List.map_map]
    rfl
  exact ⟨by rw [ho, List.length_map], by rw [hc, List.length_map], ho, hc⟩

/-- Witness for the amended C4 at a concrete input: two accounts with
distinct ids, one matched opportunity, one contact with an unmatched id
(joined to a null account name, not dropped). -/
theorem leftJoin_preserves_count_witness :
    (joinOpps [⟨1, 1, 1000, 50, "Prospecting", "2025-01-01"⟩] [⟨1, "Acme"⟩, ⟨2, "Byte"⟩]).length = 1 ∧
    (joinContacts [⟨1, 7, "Jane", "jane@acme.example"⟩] [⟨1, "Acme"⟩, ⟨2, "Byte"⟩]).length = 1 ∧
    joinOpps [⟨1, 1, 1000, 50, "Prospecting", "2025-01-01"⟩] [⟨1, "Acme"⟩, ⟨2, "Byte"⟩]
      = [⟨1, 1, 1000, 50, "Prospecting", "2025-01-01"⟩].map (joinedOppRow [⟨1, "Acme"⟩, ⟨2, "Byte"⟩]) ∧
    joinContacts [⟨1, 7, "Jane", "jane@acme.example"⟩] [⟨1, "Acme"⟩, ⟨2, "Byte"⟩]
      = [⟨1, 7, "Jane", "jane@acme.example"⟩].map (joinedContactRow [⟨1, "Acme"⟩, ⟨2, "Byte"⟩]) :=
  leftJoin_preserves_count [⟨1, 1, 1000, 50, "Prospecting", "2025-01-01"⟩]
    [⟨1, 7, "Jane", "jane@acme.example"⟩] [⟨1, "Acme"⟩, ⟨2, "Byte"⟩] (by decide)

lemma sum_map_add_q (ks : List String) (f g : String → ℚ) :
    (ks.map (fun s => f s + g s)).sum = (ks.map f).sum + (ks.map g).sum := by
  induction ks with
  | nil => simp
  | cons k ks ih => simp only [List.map_cons, List.sum_cons, ih]; ring

lemma sum_ite_not_mem (ks : List String) (a : String) (v : ℚ) (ha : a ∉ ks) :
    (ks.map (fun s => if a = s then v else 0)).sum = 0 := by
  induction ks with
  | nil => simp
  | cons k ks ih =>
    simp only [List.mem_cons, not_or] at ha
    simp only [List.map_cons, List.sum_cons, if_neg ha.1, ih ha.2, add_zero]

lemma sum_ite_single (ks : List String) (a : String) (v : ℚ)
    (hnd : ks.Nodup) (ha : a ∈ ks) :
    (ks.map (fun s => if a = s then v else 0)).sum = v := by
  induction ks with
  | nil => simp at ha
  | cons k ks ih =>
    rcases List.mem_cons.mp ha with h | h
    · subst h
      simp only [List.map_cons, List.sum_cons]
      rw [sum_ite_not_mem ks a v (List.nodup_cons.mp hnd).1, add_zero]
      simp
    · have hak : a ≠ k := by
        rintro rfl; exact (List.nodup_cons.mp hnd).1 h
      simp only [List.map_cons, List.sum_cons, if_neg hak]
      rw [ih (List.nodup_cons.mp hnd).2 h, zero_add]

lemma stageSum_cons (o : Opp) (rest : List Opp) (s : String) :
    stageSum (o :: rest) s = (if o.stage = s then o.amount else 0) + stageSum rest s := by
  simp only [stageSum, List.filter_cons]
  by_cases h : o.stage = s
  · simp [h]
  · simp [h]

lemma sum_stageSum (ks : List String) (opps : List Opp) (hnd : ks.Nodup)
    (hcov : ∀ o ∈ opps, o.stage ∈ ks) :
    (ks.map (stageSum opps)).sum = totalPipeline opps := by
  induction opps with
  | nil =>
    have h0 : stageSum [] = fun _ => (0 : ℚ) := funext fun s => by simp [stageSum]
    simp [totalPipeline, h0]
  | cons o rest ih =>
    have hrw : ks.map (stageSum (o :: rest))
        = ks.map (fun s => (if o.stage = s then o.amount else 0) + stageSum rest s) := by
      apply List.map_congr_left
      intro s _
      exact stageSum_cons o rest s
    rw [hrw, sum_map_add_q,
      sum_ite_single ks o.stage o.amount hnd (hcov o (List.mem_cons_self o rest)),
      ih (fun x hx => hcov x (List.mem_cons_of_mem o hx))]
    simp [totalPipeline]

/-- C3: the per-stage aggregated amounts of `stage_summary` sum to the total
pipeline amount: grouping on the stage label partitions the opportunity
table, so no amount is lost or double-counted. -/
theorem stage_summary_partition (opps : List Opp) :
    ((stage_summary opps).map Prod.snd).sum = totalPipeline opps := by
  have h : (stage_summary opps).map Prod.snd = (stageKeys opps).map (stageSum opps) := by
    simp [stage_summary, Function.comp]
  rw [h]
  exact sum_stageSum (stageKeys opps) opps (List.nodup_dedup _)
    (fun o ho => List.mem_dedup.mpr (List.mem_map_of_mem Opp.stage ho))

/-- C2: `ask_ai` never raises: for any exception message it returns the
string "AI Error: " followed by that message (in particular exactly
"AI Error: rate limit" for a "rate limit" exception), and for any
successful response it returns the first choice's message content. -/
theorem ask_ai_spec (e : String) (c : Choice) (rest : List Choice) :
    ask_ai (.error e) = "AI Error: " ++ e ∧
    ask_ai (.ok ⟨c :: rest⟩) = c.message.content ∧
    ask_ai (.error "rate limit") = "AI Error: rate limit" := by
  exact ⟨rfl, rfl, rfl⟩

/-- C5: for every non-empty question, the assistant context is the
four-column projection of the first 20 opportunity rows in table order (all
rows when fewer than 20), and the prompt is the rendered context slice
followed by the question text verbatim, followed by the fixed answer
instruction. -/
theorem assistant_prompt_spec (opps : List Opp) (q : String) (hq : q ≠ "") :
    assistantContext opps = (opps.take 20).map projectOpp ∧
    (assistantContext opps).length = min 20 opps.length ∧
    assistantPrompt opps q
      = ("\n            Sales Data (top 20 opportunities):\n            "
          ++ renderContextTable (assistantContext opps)
          ++ "\n\n            Question: ")
        ++ q
        ++ "\n\n            Answer concisely with specific numbers and recommendations.\n            " := by
  refine ⟨?_, ?_, rfl⟩
  · rw [assistantContext, List.map_take]
  · rw [assistantContext, List.length_take, List.length_map]

/-- Witness for C5 at the spec's example table and a concrete non-empty
question. -/
theorem assistant_prompt_spec_witness :
    assistantContext exampleOpps = (exampleOpps.take 20).map projectOpp ∧
    (assistantContext exampleOpps).length = min 20 exampleOpps.length ∧
    assistantPrompt exampleOpps "Which accounts have the highest pipeline?"
      = ("\n            Sales Data (top 20 opportunities):\n            "
          ++ renderContextTable (assistantContext exampleOpps)
          ++ "\n\n            Question: ")
        ++ "Which accounts have the highest pipeline?"
        ++ "\n\n            Answer concisely with specific numbers and recommendations.\n            " :=
  assistant_prompt_spec exampleOpps "Which accounts have the highest pipeline?" (by decide)

/-- C6: if no contact row's denormalized account name equals the selected
account, the contacts section of the meeting-prep brief is exactly the
literal "No contacts" — which differs from the rendering of an empty
contacts table — and if at least one contact matches, the section is the
rendered name/email table of the matching contacts. -/
theorem meeting_contacts_section (contacts : List Contact) (account : String) :
    (account_contacts contacts account = [] →
      contactsSection contacts account = "No contacts") ∧
    (account_contacts contacts account ≠ [] →
      contactsSection contacts account
        = renderContactsTable (account_contacts contacts account)) ∧
    renderContactsTable [] ≠ "No contacts" := by
  refine ⟨fun h => ?_, fun h => ?_, by decide⟩
  · rw [contactsSection, if_pos h]
  · rw [contactsSection, if_neg h]

/-- Witness for C6: an account with no matching contact yields the literal
marker; an account with one matching contact yields the rendered table. -/
theorem meeting_contacts_section_witness :
    contactsSection [⟨1, 1, "Jane", "jane@acme.example", some "Acme"⟩] "Byte" = "No contacts" ∧
    contactsSection [⟨1, 1, "Jane", "jane@acme.example", some "Acme"⟩] "Acme"
      = renderContactsTable
          (account_contacts [⟨1, 1, "Jane", "jane@acme.example", some "Acme"⟩] "Acme") :=
  ⟨(meeting_contacts_section [⟨1, 1, "Jane", "jane@acme.example", some "Acme"⟩] "Byte").1
      (by decide),
   (meeting_contacts_section [⟨1, 1, "Jane", "jane@acme.example", some "Acme"⟩] "Acme").2.1
      (by decide)⟩

/-- C7: the credential is resolved from the environment variable first and
from the secret store only when the environment yields nothing (absent or
empty); when neither source yields a credential the startup is a fatal
error (the halt before any view renders), and otherwise the client handle
is built from the resolved key, constructed once and returned as-is from
the memo cell on every later call. -/
theorem credential_resolution (secrets env2 secrets2 : Option String) (k : String)
    (c : GroqClient) (hk : k ≠ "") :
    get_groq_client (some k) secrets = .ok ⟨k⟩ ∧
    get_groq_client none (some k) = .ok ⟨k⟩ ∧
    get_groq_client (some "") (some k) = .ok ⟨k⟩ ∧
    get_groq_client none none = .error () ∧
    get_groq_client none (some "") = .error () ∧
    get_groq_client (some "") none = .error () ∧
    get_groq_client (some "") (some "") = .error () ∧
    get_groq_client_cached none (some k) secrets = .ok (⟨k⟩, some ⟨k⟩) ∧
    get_groq_client_cached (some c) env2 secrets2 = .ok (c, some c) := by
  have h1 : get_groq_client (some k) secrets = .ok ⟨k⟩ := by
    simp [get_groq_client, pyOr, hk]
  refine ⟨h1, by simp [get_groq_client, pyOr, hk], by simp [get_groq_client, pyOr, hk],
    rfl, rfl, rfl, rfl, ?_, rfl⟩
  rw [get_groq_client_cached, h1]

/-- Witness for C7 with a concrete non-empty key and concrete values of the
other sources. -/
theorem credential_resolution_witness :
    get_groq_client (some "gsk-test") (some "other") = .ok ⟨"gsk-test"⟩ ∧
    get_groq_client none (some "gsk-test") = .ok ⟨"gsk-test"⟩ ∧
    get_groq_client (some "") (some "gsk-test") = .ok ⟨"gsk-test"⟩ ∧
    get_groq_client none none = .error () ∧
    get_groq_client none (some "") = .error () ∧
    get_groq_client (some "") none = .error () ∧
    get_groq_client (some "") (some "") = .error () ∧
    get_groq_client_cached none (some "gsk-test") (some "other") = .ok (⟨"gsk-test"⟩, some ⟨"gsk-test"⟩) ∧
    get_groq_client_cached (some ⟨"gsk-test"⟩) none none = .ok (⟨"gsk-test"⟩, some ⟨"gsk-test"⟩) :=
  credential_resolution (some "other") none none "gsk-test" ⟨"gsk-test"⟩ (by decide)

lemma not_mem_renameCol {a old nw : String} {cols : List String}
    (ha : a ∉ cols) (hnew : a ≠ nw) : a ∉ renameCol old nw cols := by
  rw [renameCol]
  intro hmem
  rcases List.mem_map.mp hmem with ⟨c, hc, hfc⟩
  by_cases h : c = old
  · rw [if_pos h] at hfc
    exact hnew hfc.symm
  · rw [if_neg h] at hfc
    exact ha (hfc ▸ hc)

/-- C8: on a raw tasks table whose schema (as documented, upper-case raw
names) has no account-id column, the rename is skipped and the
account-name join is skipped, so `account_name` is absent from the result;
if the raw activity-date column is absent the parsed `activity_date`
column is not added; in both cases the loader returns normally — the
schema function is total — with the derived column simply missing. -/
theorem tasks_optional_columns (cols : List String)
    (hid : "account_id" ∉ cols) (hname : "account_name" ∉ cols)
    (hdate : "activity_date" ∉ cols) :
    ("ACCOUNT_ID" ∉ cols →
      tasksRenameStep cols = cols ∧ "account_name" ∉ processTasksCols cols) ∧
    ("ACTIVITY_DATE" ∉ cols →
      tasksDateStep (tasksRenameStep cols) = tasksRenameStep cols ∧
      "activity_date" ∉ processTasksCols cols) := by
  constructor
  · intro hacc
    have hrn : tasksRenameStep cols = cols := by
      rw [tasksRenameStep, if_neg hacc]
    have hid2 : "account_id" ∉ tasksDateStep cols := by
      rw [tasksDateStep]
      split
      · intro hmem
        rcases List.mem_append.mp hmem with h | h
        · exact hid h
        · rw [List.mem_singleton] at h
          exact absurd h (by decide)
      · exact hid
    have hfin : processTasksCols cols = tasksDateStep cols := by
      rw [processTasksCols, hrn, tasksJoinStep, if_neg hid2]
    refine ⟨hrn, ?_⟩
    rw [hfin, tasksDateStep]
    split
    · intro hmem
      rcases List.mem_append.mp hmem with h | h
      · exact hname h
      · rw [List.mem_singleton] at h
        exact absurd h (by decide)
    · exact hname
  · intro hact
    have hd1 : "ACTIVITY_DATE" ∉ tasksRenameStep cols := by
      rw [tasksRenameStep]
      split
      · exact not_mem_renameCol hact (by decide)
      · exact hact
    have hds : tasksDateStep (tasksRenameStep cols) = tasksRenameStep cols := by
      rw [tasksDateStep, if_neg hd1]
    have hd2 : "activity_date" ∉ tasksRenameStep cols := by
      rw [tasksRenameStep]
      split
      · exact not_mem_renameCol hdate (by decide)
      · exact hdate
    refine ⟨hds, ?_⟩
    rw [processTasksCols, hds, tasksJoinStep]
    split
    · intro hmem
      rcases List.mem_append.mp hmem with h | h
      · exact hd2 h
      · rw [List.mem_singleton] at h
        exact absurd h (by decide)
    · exact hd2

/-- Witness for C8 on a concrete raw tasks schema with neither optional
column. -/
theorem tasks_optional_columns_witness :
    (tasksRenameStep ["ID", "SUBJECT"] = ["ID", "SUBJECT"] ∧
      "account_name" ∉ processTasksCols ["ID", "SUBJECT"]) ∧
    (tasksDateStep (tasksRenameStep ["ID", "SUBJECT"]) = tasksRenameStep ["ID", "SUBJECT"] ∧
      "activity_date" ∉ processTasksCols ["ID", "SUBJECT"]) :=
  ⟨(tasks_optional_columns ["ID", "SUBJECT"] (by decide) (by decide) (by decide)).1 (by decide),
   (tasks_optional_columns ["ID", "SUBJECT"] (by decide) (by decide) (by decide)).2 (by decide)⟩

/-- C9: no loaded table is mutated after load: each view, with its state
passed explicitly, returns the loaded tables unchanged; the dashboard's
weighted table is a fresh copy — dropping its derived column gives back
exactly the memoized opportunity table, row for row — so the memoized
table has the same columns and rows before and after rendering. -/
theorem views_do_not_mutate (t : Tables)
    (question account oaccount contact tone purpose : String) :
    (dashboardView t).1 = t ∧
    (assistantView t question).1 = t ∧
    (meetingView t account).1 = t ∧
    (outreachView t oaccount contact tone purpose).1 = t ∧
    (weighted_df t.opps).map dropWeighted = t.opps ∧
    (weighted_df t.opps).length = t.opps.length := by
  refine ⟨rfl, rfl, rfl, rfl, ?_, by rw [weighted_df, List.length_map]⟩
  rw [weighted_df, List.map_map]
  have h : (dropWeighted ∘ mkWeighted) = fun o : Opp => o := funext fun o => rfl
  rw [h, List.map_id']

/-- C10: any account offered by the Outreach Generator's account selector
(the contact table's distinct sorted non-null account names) has at least
one matching contact row, so the cascaded contact selector shows the
contact-name list and its "No Contacts" placeholder branch is not taken. -/
theorem outreach_cascade_nonempty (contacts : List Contact) (a : String)
    (ha : a ∈ accountOptions contacts) :
    contact_df contacts a ≠ [] ∧
    contactOptions contacts a = (contact_df contacts a).map Contact.contact_name := by
  have hmem : a ∈ (contacts.filterMap Contact.account_name).dedup :=
    (List.mergeSort_perm ((contacts.filterMap Contact.account_name).dedup)
      (fun a b => a ≤ b)).mem_iff.mp ha
  rcases List.mem_filterMap.mp (List.mem_dedup.mp hmem) with ⟨c, hc, hca⟩
  have hcd : c ∈ contact_df contacts a := by
    rw [contact_df]
    exact List.mem_filter.mpr ⟨hc, by simp [hca]⟩
  have hne : contact_df contacts a ≠ [] := List.ne_nil_of_mem hcd
  exact ⟨hne, by rw [contactOptions, if_neg hne]⟩

/-- Witness for C10 at a one-contact table whose single account option is
chosen. -/
theorem outreach_cascade_nonempty_witness :
    contact_df [⟨1, 1, "Jane", "jane@acme.example", some "Acme"⟩] "Acme" ≠ [] ∧
    contactOptions [⟨1, 1, "Jane", "jane@acme.example", some "Acme"⟩] "Acme"
      = (contact_df [⟨1, 1, "Jane", "jane@acme.example", some "Acme"⟩] "Acme").map
          Contact.contact_name :=
  outreach_cascade_nonempty [⟨1, 1, "Jane", "jane@acme.example", some "Acme"⟩] "Acme"
    ((List.mergeSort_perm
        (([⟨1, 1, "Jane", "jane@acme.example", some "Acme"⟩] : List Contact).filterMap
          Contact.account_name).dedup (fun a b => a ≤ b)).mem_iff.mpr (by decide))

end Sales
